import Mathlib

/-!
Shallow embedding of the PDF question-answering backend (`src/backend/main.py`)
and verification of the specification's claims about it.

Modelling conventions:
* Python strings are sequences of characters; `String` / `List Char` model them,
  and all slicing (`text[:500]`, chunk boundaries) is per character, as in Python.
* The web framework, the PDF library (`fitz`), the langchain text splitter,
  the cached embeddings and the FAISS store are external to `src/`; the parts of
  their behaviour that the spec describes are modelled from the spec and marked
  `Modelled from the spec:` in their doc comments.  Everything else is a direct
  translation of the control flow of `main.py`.
* External side effects (saving the file, extracting text, calling the embedding
  service) are passed to the pipeline as explicit outcome values.
-/

namespace PdfQna

/-- Python's `sub in s` substring test, on character sequences. -/
def strContains (s sub : String) : Bool :=
  decide (List.IsInfix sub.data s.data)

/-- Python's `s.lower()` restricted to ASCII case folding (all messages that the
program classifies are ASCII). -/
def strToLower (s : String) : String :=
  ⟨s.data.map Char.toLower⟩

/-- Python's `s.endswith(suffix)` on character sequences. -/
def strEndsWith (s suffix : String) : Bool :=
  suffix.data.isSuffixOf s.data

/-- Python's `s[:n]` prefix slice, counted in characters. -/
def strTake (s : String) (n : Nat) : String :=
  ⟨s.data.take n⟩

/-- Python's `sep.join(xs)`. -/
def strJoin (sep : String) : List String → String
  | [] => ""
  | [x] => x
  | x :: y :: rest => x ++ sep ++ strJoin sep (y :: rest)

/-- Lookup in an association list; models lookup in a Python `dict`
whose newest binding for a key shadows older ones. -/
def assocFind {κ β : Type} [DecidableEq κ] (k : κ) : List (κ × β) → Option β
  | [] => none
  | e :: rest => if e.1 = k then some e.2 else assocFind k rest

/-! ## Centralized error handling (`handle_error`, main.py lines 65-82) -/

/-- The dictionary returned by `handle_error`. -/
structure ErrorDetails where
  status_code : Nat
  detail : String
deriving DecidableEq

/-- A Python exception as `handle_error` can observe it: an `HTTPException`
carrying a status code and detail, an `IOError`/`OSError` instance, or any
other exception.  `cls` is the concrete exception class, kept to show that
classification of generic exceptions ignores it; `msg` is `str(error)`. -/
inductive PyExc where
  | http (status_code : Nat) (detail : String)
  | ioError (cls : String) (msg : String)
  | generic (cls : String) (msg : String)
deriving DecidableEq

/-- Direct translation of `handle_error` (main.py lines 65-82): `HTTPException`
passes through; `IOError`/`OSError` map to 500; otherwise the message text is
inspected: a message containing `"PDF"` maps to 400, else a message whose
lowercase form contains `"openai"` maps to 503, else 500. -/
def handle_error : PyExc → ErrorDetails
  | .http sc d => ⟨sc, d⟩
  | .ioError _ m => ⟨500, "File operation failed: " ++ m⟩
  | .generic _ m =>
    if strContains m "PDF" then ⟨400, "PDF processing error: " ++ m⟩
    else if strContains (strToLower m) "openai" then ⟨503, "AI service error: " ++ m⟩
    else ⟨500, "Unexpected error: " ++ m⟩

/-! ## Chunker

Modelled from the spec: the text splitter itself is the langchain
`RecursiveCharacterTextSplitter`, whose code is not under `src/`; `main.py`
(lines 111-116) only configures it with `chunk_size=1000`, `chunk_overlap=200`
and character-count length.  The model follows the spec's contract
(§3 Chunk, §4.1 Chunker): chunks of at most `chunk_size` characters, the
trailing `overlap` characters of one chunk repeated as the leading characters
of the next, every non-empty input producing at least one chunk. -/

/-- Modelled from the spec: one chunking step.  While more than `cs` characters
remain, emit the first `cs` characters and continue from `cs - ov` characters
in, so consecutive chunks share `ov` characters.  `fuel` bounds the recursion;
`fuel = t.length` is always sufficient when `ov < cs`. -/
def splitAux (cs ov : Nat) : Nat → List Char → List (List Char)
  | 0, t => [t]
  | fuel + 1, t =>
    if t.length ≤ cs then [t]
    else t.take cs :: splitAux cs ov fuel (t.drop (cs - ov))

/-- Modelled from the spec: `split(text, chunk_size, overlap)` (§4.1).
An empty input yields no chunks; otherwise the sliding-window chunking of
`splitAux`. -/
def split (cs ov : Nat) (t : List Char) : List (List Char) :=
  if t = [] then [] else splitAux cs ov t.length t

/-- Undo the declared overlap: keep the first chunk whole and drop the leading
`ov` characters of every later chunk, then concatenate. -/
def dropOverlaps (ov : Nat) : List (List Char) → List Char
  | [] => []
  | c :: rest => c ++ (rest.map (fun d => d.drop ov)).flatten

/-- The last `n` characters of a chunk. -/
def lastN (n : Nat) (l : List Char) : List Char :=
  l.drop (l.length - n)

/-! ## Embedding cache

Modelled from the spec: `CacheBackedEmbeddings` over a `LocalFileStore`
(main.py lines 45-53) is library code not under `src/`.  The model follows
§4.2: a fingerprint is the pair (model identity, text); a hit returns the
stored vector without calling the external capability; a miss calls it once,
stores the result and returns it.  `V` is the abstract vector type and `f`
the external embedding capability (deterministic per the spec). -/

/-- The cache state: fingerprint-to-vector entries. -/
structure EmbCache (V : Type) where
  entries : List ((String × String) × V)
deriving DecidableEq

/-- Modelled from the spec: `embed` through the cache.  Returns the vector, the
updated cache, and how many times the external capability was invoked. -/
def embed {V : Type} (f : String → V) (model : String) (c : EmbCache V)
    (text : String) : V × EmbCache V × Nat :=
  match assocFind (model, text) c.entries with
  | some v => (v, c, 0)
  | none => (f text, ⟨((model, text), f text) :: c.entries⟩, 1)

/-! ## Vector index -/

/-- A built per-document index: the chunk texts it indexes, in insertion
order (embeddings are abstracted into the similarity function passed to
`search`). -/
structure VectorIndex where
  chunks : List String
deriving DecidableEq

/-- Outcome of the external embedding calls made while building an index. -/
inductive BuildOutcome where
  | ok
  | exn (msg : String)
deriving DecidableEq

/-- Modelled from the spec: `FAISS.from_texts` (main.py line 120) is library
code not under `src/`.  Per §4.3, build fails if the chunk sequence is empty
(`emptyMsg` is the message of that failure, raised before any external call)
or if the external embedding calls fail. -/
def buildIndex (chunks : List String) (emb : BuildOutcome) (emptyMsg : String) :
    Except String VectorIndex :=
  if chunks = [] then .error emptyMsg
  else
    match emb with
    | .ok => .ok ⟨chunks⟩
    | .exn m => .error m

/-- Modelled from the spec: `similarity_search` (main.py line 152) is library
code not under `src/`.  Per §4.3, search ranks the indexed chunks best-first
under the similarity `sim` (higher is more similar), ties broken stably by
original chunk order, and returns the first `k`. -/
def search (sim : String → Int) (idx : VectorIndex) (k : Nat) : List String :=
  (List.insertionSort (fun a b => sim b ≤ sim a) idx.chunks).take k

/-! ## Ingestion pipeline (`upload_pdf`, main.py lines 84-138) -/

/-- An uploaded file: its client-supplied name and its raw bytes. -/
structure UploadFile where
  filename : String
  content : List Nat
deriving DecidableEq

/-- Outcome of writing the uploaded bytes to disk (main.py lines 97-98). -/
inductive SaveOutcome where
  | ok
  | ioFail (cls msg : String)
deriving DecidableEq

/-- Outcome of PDF text extraction via `fitz` (main.py lines 102-105):
either the per-page text strings, or an exception message. -/
inductive ExtractOutcome where
  | ok (pages : List String)
  | exn (msg : String)
deriving DecidableEq

/-- The distinct failure exits of `upload_pdf`, one per raise site. -/
inductive UploadError where
  | badFileType
  | fileSaveFailed (cls msg : String)
  | extractionFailed (msg : String)
  | processingFailed (msg : String)
deriving DecidableEq

/-- Whether an upload failure is the extraction-step failure
(the exception raised at main.py line 108). -/
def UploadError.isExtractionFailure : UploadError → Bool
  | .extractionFailed _ => true
  | _ => false

/-- The Python exception each upload failure raises, as `handle_error` sees it
(main.py lines 88, 97, 108, 124). -/
def UploadError.toPyExc : UploadError → PyExc
  | .badFileType => .http 400 "Only PDF files are allowed"
  | .fileSaveFailed cls m => .ioError cls m
  | .extractionFailed m => .generic "Exception" ("Failed to extract text from PDF: " ++ m)
  | .processingFailed m => .generic "Exception" ("Failed to process document: " ++ m)

/-- The successful upload response (id and original filename; the timestamp is
wall-clock output and not modelled). -/
structure UploadOk where
  id : String
  name : String
deriving DecidableEq

/-- The process-wide `document_stores` dict (main.py line 59), as an
association list whose head shadows older bindings. -/
abbrev Registry := List (String × VectorIndex)

/-- Direct translation of `upload_pdf` (main.py lines 84-131): validate the
`.pdf` extension, save the file, extract text and join the pages with `" "`,
split into chunks with `chunk_size=1000, overlap=200`, build the vector store,
and only then register it under the fresh `docId`.  Every failure path leaves
the registry untouched.  `docId` stands for the generated UUID, and the
external steps' outcomes are passed in explicitly. -/
def upload_pdf (reg : Registry) (docId : String) (file : UploadFile)
    (save : SaveOutcome) (extract : ExtractOutcome) (build : BuildOutcome)
    (emptyMsg : String) : Except UploadError UploadOk × Registry :=
  if strEndsWith file.filename ".pdf" then
    match save with
    | .ioFail cls m => (.error (.fileSaveFailed cls m), reg)
    | .ok =>
      match extract with
      | .exn m => (.error (.extractionFailed m), reg)
      | .ok pages =>
        let text := strJoin " " pages
        let texts := (split 1000 200 text.data).map (fun l => String.mk l)
        match buildIndex texts build emptyMsg with
        | .error m => (.error (.processingFailed m), reg)
        | .ok vs => (.ok ⟨docId, file.filename⟩, (docId, vs) :: reg)
  else (.error .badFileType, reg)

/-! ## Retrieval pipeline (`ask_question`, main.py lines 140-175) -/

/-- The failure exit of `ask_question` reachable in the model: the 404 raised
when the document id is not registered (main.py lines 145-146).  The modelled
`search` is total, so the inner wrapper at line 168 is unreachable. -/
inductive AskError where
  | notFound
deriving DecidableEq

/-- The successful ask response (response id and timestamp are fresh
wall-clock outputs and not modelled). -/
structure AskOk where
  question : String
  answer : String
deriving DecidableEq

/-- Direct translation of `ask_question` (main.py lines 140-164): look the
document up in the registry (404 if absent), retrieve the top `k = 4` chunks,
join them with `"\n"` into the context, and return the fixed placeholder
template around the first 500 characters of the context. -/
def ask_question (sim : String → Int) (reg : Registry) (docId question : String) :
    Except AskError AskOk :=
  match assocFind docId reg with
  | none => .error .notFound
  | some vs =>
    let docs := search sim vs 4
    let context := strJoin "\n" docs
    .ok ⟨question, "Based on the context, here is the answer: " ++ strTake context 500 ++ "..."⟩

/-! ## Chunker lemmas -/

theorem splitAux_ne_nil (cs ov fuel : Nat) (t : List Char) : splitAux cs ov fuel t ≠ [] := by
  cases fuel with
  | zero => simp [splitAux]
  | succ f =>
    unfold splitAux
    split <;> simp

theorem splitAux_head_take (fuel : Nat) (t h : List Char)
    (hh : h ∈ (splitAux 1000 200 fuel t).head?) : h.take 200 = t.take 200 := by
  cases fuel with
  | zero =>
    simp [splitAux] at hh
    subst hh; rfl
  | succ f =>
    unfold splitAux at hh
    split at hh
    · simp at hh; subst hh; rfl
    · simp at hh
      subst hh
      rw [List.take_take]
      norm_num

theorem splitAux_flatten_drop (fuel : Nat) (t : List Char) (hle : t.length ≤ fuel) :
    ((splitAux 1000 200 fuel t).map (fun d => d.drop 200)).flatten = t.drop 200 := by
  induction fuel generalizing t with
  | zero =>
    have ht : t = [] := List.eq_nil_of_length_eq_zero (Nat.le_zero.mp hle)
    subst ht; rfl
  | succ f ih =>
    unfold splitAux
    split
    · simp
    · rename_i hlen
      rw [List.map_cons, List.flatten_cons,
        ih (t.drop (1000 - 200)) (by simp [List.length_drop]; omega)]
      rw [List.drop_take, List.drop_drop]
      have h1000 : t.drop (1000 - 200 + 200) = (t.drop 200).drop 800 := by
        rw [List.drop_drop]
      rw [h1000]
      have h800 : (1000 : Nat) - 200 = 800 := rfl
      rw [h800, List.take_append_drop]

theorem splitAux_chain (fuel : Nat) (t : List Char) (hle : t.length ≤ fuel) :
    List.Chain' (fun a b => lastN 200 a = b.take 200) (splitAux 1000 200 fuel t) := by
  induction fuel generalizing t with
  | zero => simp [splitAux]
  | succ f ih =>
    unfold splitAux
    split
    · simp
    · rename_i hlen
      refine List.chain'_cons'.mpr ⟨?_, ih _ (by simp [List.length_drop]; omega)⟩
      intro h hh
      rw [splitAux_head_take f _ h hh]
      unfold lastN
      rw [List.length_take]
      have hmin : min 1000 t.length - 200 = 800 := by omega
      rw [hmin, List.drop_take]

/-! ## Claim theorems -/

/-- C2: for every input text, concatenating the chunks produced with
`chunk_size=1000, overlap=200` after removing the declared 200-character
overlap region of each non-first chunk reconstructs the input exactly. -/
theorem C2_chunk_coverage (t : List Char) : dropOverlaps 200 (split 1000 200 t) = t := by
  unfold split
  split
  · rename_i ht; subst ht; rfl
  · rename_i ht
    have hlen : 0 < t.length := List.length_pos.mpr ht
    obtain ⟨n, hn⟩ : ∃ n, t.length = n + 1 := ⟨t.length - 1, by omega⟩
    rw [hn]
    unfold splitAux
    split
    · simp [dropOverlaps]
    · rename_i hlen2
      simp only [dropOverlaps]
      rw [splitAux_flatten_drop n (t.drop (1000 - 200)) (by simp [List.length_drop]; omega)]
      rw [List.drop_drop]
      have h1000 : (1000 : Nat) - 200 + 200 = 1000 := rfl
      rw [h1000, List.take_append_drop]

/-- C3: for every input text and adjacent chunk pair in the
`chunk_size=1000, overlap=200` chunking, the last 200 characters of chunk `i`
equal the first 200 characters of chunk `i+1`. -/
theorem C3_overlap_invariant (t : List Char) (i : Nat)
    (h : i + 1 < (split 1000 200 t).length) :
    lastN 200 ((split 1000 200 t).get ⟨i, by omega⟩) =
      ((split 1000 200 t).get ⟨i + 1, h⟩).take 200 := by
  have hch : List.Chain' (fun a b => lastN 200 a = b.take 200) (split 1000 200 t) := by
    unfold split
    split
    · simp
    · exact splitAux_chain t.length t (le_refl _)
  exact List.chain'_iff_get.mp hch i (by omega)

set_option maxRecDepth 40000 in
theorem C3_witness :
    lastN 200 ((split 1000 200 (List.replicate 1001 'a')).get ⟨0, by decide⟩) =
      ((split 1000 200 (List.replicate 1001 'a')).get ⟨1, by decide⟩).take 200 :=
  C3_overlap_invariant (List.replicate 1001 'a') 0 (by decide)

/-- C4: every non-empty input produces at least one chunk. -/
theorem C4_nonempty_input_chunks (t : List Char) (h : t ≠ []) :
    split 1000 200 t ≠ [] := by
  unfold split
  rw [if_neg h]
  exact splitAux_ne_nil 1000 200 t.length t

theorem C4_witness : split 1000 200 ['a'] ≠ [] :=
  C4_nonempty_input_chunks ['a'] (by decide)

/-- C5: for a fixed model identity, embedding the same text twice through the
cache returns identical vectors and invokes the external capability at most
once over the two calls; on a fingerprint hit it is not invoked at all. -/
theorem C5_cache_idempotence {V : Type} (f : String → V) (model : String)
    (c : EmbCache V) (text : String) :
    (embed f model c text).1 = (embed f model (embed f model c text).2.1 text).1 ∧
    (embed f model c text).2.2 + (embed f model (embed f model c text).2.1 text).2.2 ≤ 1 ∧
    (∀ v, assocFind (model, text) c.entries = some v → (embed f model c text).2.2 = 0) := by
  unfold embed
  cases hl : assocFind (model, text) c.entries with
  | some v => simp [hl]
  | none => simp [hl, assocFind]

theorem C5_witness :
    (embed (fun s => s.length) "text-embedding-ada-002"
      ⟨[(("text-embedding-ada-002", "hello"), 5)]⟩ "hello").2.2 = 0 :=
  (C5_cache_idempotence (fun s => s.length) "text-embedding-ada-002"
    ⟨[(("text-embedding-ada-002", "hello"), 5)]⟩ "hello").2.2 5 rfl

/-- C6: a failing upload leaves the registry untouched; a successful upload
registers exactly the fresh id; the fresh id becomes retrievable if and only
if the whole pipeline (including index construction) succeeded. -/
theorem C6_no_partial_registration (reg : Registry) (docId : String) (file : UploadFile)
    (save : SaveOutcome) (extract : ExtractOutcome) (build : BuildOutcome) (emptyMsg : String) :
    (∀ e, (upload_pdf reg docId file save extract build emptyMsg).1 = .error e →
      (upload_pdf reg docId file save extract build emptyMsg).2 = reg) ∧
    (∀ ok, (upload_pdf reg docId file save extract build emptyMsg).1 = .ok ok →
      ∃ vs, (upload_pdf reg docId file save extract build emptyMsg).2 = (docId, vs) :: reg) ∧
    (assocFind docId reg = none →
      ((assocFind docId (upload_pdf reg docId file save extract build emptyMsg).2).isSome ↔
        ∃ ok, (upload_pdf reg docId file save extract build emptyMsg).1 = .ok ok)) := by
  by_cases hpdf : strEndsWith file.filename ".pdf"
  · cases save with
    | ioFail cls m => simp [upload_pdf, hpdf]
    | ok =>
      cases extract with
      | exn m => simp [upload_pdf, hpdf]
      | ok pages =>
        by_cases hc : (split 1000 200 (strJoin " " pages).data).map (fun l => String.mk l) = []
        · simp [upload_pdf, buildIndex, hpdf, hc]
        · cases build with
          | ok =>
            refine ⟨?_, ?_, ?_⟩
            · intro e he
              simp [upload_pdf, buildIndex, hpdf, hc] at he
            · intro ok hok
              exact ⟨⟨(split 1000 200 (strJoin " " pages).data).map (fun l => String.mk l)⟩,
                by simp [upload_pdf, buildIndex, hpdf, hc]⟩
            · intro hnone
              simp [upload_pdf, buildIndex, hpdf, hc, assocFind]
          | exn m => simp [upload_pdf, buildIndex, hpdf, hc]
  · simp [upload_pdf, hpdf]

theorem C6_witness :
    (upload_pdf [] "doc-1" ⟨"a.pdf", []⟩ .ok (.exn "boom") .ok "e").2 = [] ∧
    (assocFind "doc-1" (upload_pdf [] "doc-1" ⟨"a.pdf", []⟩ .ok (.ok ["hello"]) .ok "e").2).isSome := by
  refine ⟨?_, ?_⟩
  · exact (C6_no_partial_registration [] "doc-1" ⟨"a.pdf", []⟩ .ok (.exn "boom") .ok "e").1
      (.extractionFailed "boom") rfl
  · exact ((C6_no_partial_registration [] "doc-1" ⟨"a.pdf", []⟩ .ok (.ok ["hello"]) .ok "e").2.2
      rfl).mpr ⟨⟨"doc-1", "a.pdf"⟩, rfl⟩

/-- C7: search never returns more than `k` results, and a `k` larger than the
number of indexed chunks returns all of them (as a permutation in ranked
order), with no error. -/
theorem C7_search_bounds (sim : String → Int) (idx : VectorIndex) (k : Nat) :
    (search sim idx k).length ≤ k ∧
    (idx.chunks.length < k → List.Perm (search sim idx k) idx.chunks) := by
  constructor
  · exact List.length_take_le k _
  · intro hk
    unfold search
    have hp := List.perm_insertionSort (fun a b => sim b ≤ sim a) idx.chunks
    rw [List.take_of_length_le (by rw [hp.length_eq]; omega)]
    exact hp

theorem C7_witness :
    (search (fun _ => 0) ⟨["a", "b"]⟩ 4).length ≤ 4 ∧
    List.Perm (search (fun _ => 0) ⟨["a", "b"]⟩ 4) ["a", "b"] :=
  ⟨(C7_search_bounds (fun _ => 0) ⟨["a", "b"]⟩ 4).1,
    (C7_search_bounds (fun _ => 0) ⟨["a", "b"]⟩ 4).2 (by decide)⟩

/-- C8: every successful ask retrieves the top `k = 4` chunks, joins them in
ranked order with the `"\n"` separator, and answers with the fixed placeholder
template around the first 500 characters of that context. -/
theorem C8_ask_pipeline (sim : String → Int) (reg : Registry) (docId question : String)
    (vs : VectorIndex) (h : assocFind docId reg = some vs) :
    ask_question sim reg docId question =
      .ok ⟨question, "Based on the context, here is the answer: " ++
        strTake (strJoin "\n" (search sim vs 4)) 500 ++ "..."⟩ := by
  unfold ask_question
  rw [h]

theorem C8_witness :
    ask_question (fun _ => 0) [("doc-1", ⟨["hello world"]⟩)] "doc-1" "what?" =
      .ok ⟨"what?", "Based on the context, here is the answer: hello world..."⟩ := by
  rw [C8_ask_pipeline (fun _ => 0) [("doc-1", ⟨["hello world"]⟩)] "doc-1" "what?"
    ⟨["hello world"]⟩ rfl]
  rfl

/-- C9: for non-`HTTPException` errors, `handle_error` classifies
`IOError`/`OSError` as 500 regardless of message, and classifies every other
exception purely by its message text: `"PDF"` substring gives 400, otherwise
`"openai"` in the lowercased message gives 503, otherwise 500; the concrete
exception class of a generic error never affects the result. -/
theorem C9_error_classification (cls cls2 m : String) :
    (handle_error (.ioError cls m)).status_code = 500 ∧
    (strContains m "PDF" = true → (handle_error (.generic cls m)).status_code = 400) ∧
    (strContains m "PDF" = false → strContains (strToLower m) "openai" = true →
      (handle_error (.generic cls m)).status_code = 503) ∧
    (strContains m "PDF" = false → strContains (strToLower m) "openai" = false →
      (handle_error (.generic cls m)).status_code = 500) ∧
    handle_error (.generic cls m) = handle_error (.generic cls2 m) := by
  refine ⟨rfl, ?_, ?_, ?_, rfl⟩
  · intro h1
    simp [handle_error, h1]
  · intro h1 h2
    simp [handle_error, h1, h2]
  · intro h1 h2
    simp [handle_error, h1, h2]

theorem C9_witness :
    (handle_error (.generic "RateLimitError" "openai.RateLimitError: quota exceeded")).status_code = 503 ∧
    (handle_error (.generic "ValueError" "cannot open broken PDF stream")).status_code = 400 ∧
    (handle_error (.ioError "OSError" "disk full")).status_code = 500 :=
  ⟨(C9_error_classification "RateLimitError" "X" "openai.RateLimitError: quota exceeded").2.2.1
      (by decide) (by decide),
    (C9_error_classification "ValueError" "X" "cannot open broken PDF stream").2.1 (by decide),
    (C9_error_classification "OSError" "X" "disk full").1⟩

/-- C10: whether an upload is rejected with the 400 `badFileType` error is
decided by the filename suffix alone: two uploads with the same filename and
different bytes (and arbitrary external outcomes) agree on it, and it happens
exactly when the filename does not end in `.pdf`. -/
theorem C10_validation_ignores_content (name : String) (b1 b2 : List Nat)
    (reg1 reg2 : Registry) (id1 id2 : String) (s1 s2 : SaveOutcome)
    (e1 e2 : ExtractOutcome) (bu1 bu2 : BuildOutcome) (m1 m2 : String) :
    ((upload_pdf reg1 id1 ⟨name, b1⟩ s1 e1 bu1 m1).1 = .error .badFileType ↔
      (upload_pdf reg2 id2 ⟨name, b2⟩ s2 e2 bu2 m2).1 = .error .badFileType) ∧
    ((upload_pdf reg1 id1 ⟨name, b1⟩ s1 e1 bu1 m1).1 = .error .badFileType ↔
      strEndsWith name ".pdf" = false) := by
  have key : ∀ (reg : Registry) (did : String) (b : List Nat) (s : SaveOutcome)
      (e : ExtractOutcome) (bu : BuildOutcome) (m : String),
      ((upload_pdf reg did ⟨name, b⟩ s e bu m).1 = .error .badFileType ↔
        strEndsWith name ".pdf" = false) := by
    intro reg did b s e bu m
    by_cases hpdf : strEndsWith name ".pdf"
    · cases s with
      | ioFail cls im => simp [upload_pdf, hpdf]
      | ok =>
        cases e with
        | exn im => simp [upload_pdf, hpdf]
        | ok pages =>
          by_cases hc : (split 1000 200 (strJoin " " pages).data).map (fun l => String.mk l) = []
          · simp [upload_pdf, buildIndex, hpdf, hc]
          · cases bu with
            | ok => simp [upload_pdf, buildIndex, hpdf, hc]
            | exn im => simp [upload_pdf, buildIndex, hpdf, hc]
    · simp [upload_pdf, hpdf]
  exact ⟨(key reg1 id1 b1 s1 e1 bu1 m1).trans (key reg2 id2 b2 s2 e2 bu2 m2).symm,
    key reg1 id1 b1 s1 e1 bu1 m1⟩

/-- C1 (amended): when extraction succeeds but the joined page text is empty,
the upload fails at the vector-store step with the `processingFailed` error
(not the extraction-step error), no document id is registered, and a
subsequent ask against any unregistered id returns the 404 not-found error. -/
theorem C1_empty_text_failure (reg : Registry) (docId name : String) (content : List Nat)
    (pages : List String) (build : BuildOutcome) (emptyMsg : String)
    (sim : String → Int) (fid q : String)
    (hpdf : strEndsWith name ".pdf" = true)
    (hempty : strJoin " " pages = "")
    (hfid : assocFind fid reg = none) :
    (upload_pdf reg docId ⟨name, content⟩ .ok (.ok pages) build emptyMsg).1 =
      .error (.processingFailed emptyMsg) ∧
    (upload_pdf reg docId ⟨name, content⟩ .ok (.ok pages) build emptyMsg).2 = reg ∧
    ask_question sim (upload_pdf reg docId ⟨name, content⟩ .ok (.ok pages) build emptyMsg).2
      fid q = .error .notFound := by
  have hsplit : (split 1000 200 (strJoin " " pages).data).map (fun l => String.mk l) = [] := by
    rw [hempty]; rfl
  refine ⟨?_, ?_, ?_⟩ <;>
    simp [upload_pdf, buildIndex, ask_question, hpdf, hsplit, hfid]

theorem C1_witness :
    (upload_pdf [] "doc-1" ⟨"scan.pdf", []⟩ .ok (.ok [""]) .ok "list index out of range").2 = [] ∧
    ask_question (fun _ => 0)
      (upload_pdf [] "doc-1" ⟨"scan.pdf", []⟩ .ok (.ok [""]) .ok "list index out of range").2
      "ghost-id" "anything?" = .error .notFound := by
  refine ⟨?_, ?_⟩
  · exact (C1_empty_text_failure [] "doc-1" "scan.pdf" [] [""] .ok "list index out of range"
      (fun _ => 0) "ghost-id" "anything?" rfl rfl rfl).2.1
  · exact (C1_empty_text_failure [] "doc-1" "scan.pdf" [] [""] .ok "list index out of range"
      (fun _ => 0) "ghost-id" "anything?" rfl rfl rfl).2.2

/-- C1 counterexample: a concrete upload whose extraction succeeds with one
empty page fails with the vector-store-step `processingFailed` error, which is
not the extraction-step failure and which `handle_error` classifies as a
generic 500, not the 400 class that the extraction-step exception receives. -/
theorem C1_counterexample :
    (upload_pdf [] "doc-1" ⟨"scan.pdf", []⟩ .ok (.ok [""]) .ok "list index out of range").1 =
      .error (.processingFailed "list index out of range") ∧
    UploadError.isExtractionFailure (.processingFailed "list index out of range") = false ∧
    handle_error (UploadError.toPyExc (.processingFailed "list index out of range")) =
      ⟨500, "Unexpected error: Failed to process document: list index out of range"⟩ := by
  refine ⟨rfl, rfl, by decide⟩

end PdfQna
